import Mathlib

/-
Verification of `docs/whitepaper/assets/convert_html_to_png.py`.

The script is a straight-line Python program: it resolves its own
directory, reads `dao_vs_dee_diagram.html` as UTF-8 text, invokes the
external `html2image` screenshot capability with a fixed configuration,
and then reports success or failure depending on whether the expected
output file exists.

Shallow embedding choices:
  - A filesystem is an association list from paths to byte contents.
    A path is a (directory, filename) pair, mirroring `pathlib`'s
    `SCRIPT_DIR / name` construction.
  - The external screenshot capability (`Html2Image.screenshot`) is an
    oracle parameter: given the configuration object, the decoded HTML
    text, the target filename and the current filesystem, it yields the
    filesystem after the call together with `some paths` if the call
    returned normally (the list of paths the library returned) or
    `none` if it raised an exception.
  - An unhandled Python exception terminates the interpreter with exit
    status 1; normal completion exits with status 0.
  - The run records an event trace (source read, renderer invocation
    with its arguments, existence check, report) so that ordering and
    frame properties can be stated.
-/

set_option maxRecDepth 100000

namespace HtmlToPng

/-- A filesystem path, as built by the script: a directory joined with a
filename (`SCRIPT_DIR / "dao_vs_dee_diagram.html"`). -/
structure Path where
  dir : String
  name : String
deriving DecidableEq

/-- `str()` of a posix path produced by `dir / name`. -/
def pathStr (p : Path) : String :=
  p.dir ++ "/" ++ p.name

/-- A filesystem: an association list from paths to file contents
(byte sequences, each byte a `Nat` below 256). -/
abbrev FS : Type := List (Path × List Nat)

/-- Reading a file: the contents at the first matching entry, `none`
when no file exists at the path (Python raises `FileNotFoundError`). -/
def fsRead : FS → Path → Option (List Nat)
  | [], _ => none
  | (q, bs) :: rest, p => if q = p then some bs else fsRead rest p

/-- `Path.exists()`. -/
def fsExists (fs : FS) (p : Path) : Bool :=
  (fsRead fs p).isSome

/-- `Path.stat().st_size`: the byte size of the file at `p` (0 when absent;
the script only calls it after a successful existence check). -/
def fsSize (fs : FS) (p : Path) : Nat :=
  ((fsRead fs p).getD []).length

/-- Is `b` a UTF-8 continuation byte (`0x80`–`0xBF`)? -/
def isCont (b : Nat) : Bool :=
  0x80 ≤ b && b ≤ 0xBF

/-- Strict UTF-8 decoding of a byte sequence into a sequence of Unicode
code points, as performed by Python's `read_text(encoding="utf-8")`:
rejects stray continuation bytes, overlong forms, surrogates and code
points above U+10FFFF (`none` models an unhandled `UnicodeDecodeError`). -/
def decodeUtf8 : List Nat → Option (List Nat)
  | [] => some []
  | b :: t =>
    if b ≤ 0x7F then
      Option.map (fun cs => b :: cs) (decodeUtf8 t)
    else if b ≤ 0xC1 then
      none
    else if b ≤ 0xDF then
      match t with
      | c1 :: t1 =>
        if isCont c1 then
          Option.map (fun cs => ((b - 0xC0) * 64 + (c1 - 0x80)) :: cs) (decodeUtf8 t1)
        else none
      | [] => none
    else if b ≤ 0xEF then
      match t with
      | c1 :: c2 :: t2 =>
        if (if b = 0xE0 then 0xA0 ≤ c1 && c1 ≤ 0xBF
            else if b = 0xED then 0x80 ≤ c1 && c1 ≤ 0x9F
            else isCont c1) && isCont c2 then
          Option.map (fun cs => ((b - 0xE0) * 4096 + (c1 - 0x80) * 64 + (c2 - 0x80)) :: cs)
            (decodeUtf8 t2)
        else none
      | _ => none
    else if b ≤ 0xF4 then
      match t with
      | c1 :: c2 :: c3 :: t3 =>
        if (if b = 0xF0 then 0x90 ≤ c1 && c1 ≤ 0xBF
            else if b = 0xF4 then 0x80 ≤ c1 && c1 ≤ 0x8F
            else isCont c1) && isCont c2 && isCont c3 then
          Option.map
            (fun cs =>
              ((b - 0xF0) * 262144 + (c1 - 0x80) * 4096 + (c2 - 0x80) * 64 + (c3 - 0x80)) :: cs)
            (decodeUtf8 t3)
        else none
      | _ => none
    else none

/-- The `html2image` configuration object, with exactly the fields the
script sets in the `Html2Image(...)` constructor call. -/
structure Html2Image where
  browser : String
  browser_executable : String
  output_path : String
  size : Nat × Nat
  custom_flags : List String
deriving DecidableEq

/-- `HTML_FILE`'s filename component. -/
def htmlFileName : String := "dao_vs_dee_diagram.html"

/-- `OUTPUT_FILE`. -/
def outputFileName : String := "dao_vs_dee_diagram.png"

/-- The hardcoded `browser_executable` argument. -/
def chromePath : String := "/Applications/Google Chrome.app/Contents/MacOS/Google Chrome"

/-- The configuration the script constructs: `Html2Image(browser="chrome",
browser_executable=..., output_path=str(SCRIPT_DIR), size=(1400, 1100),
custom_flags=[...])`. -/
def mkHti (scriptDir : String) : Html2Image :=
  ⟨"chrome", chromePath, scriptDir, (1400, 1100),
    ["--default-background-color=00000000", "--hide-scrollbars"]⟩

/-- The external screenshot capability, as an oracle: configuration,
decoded HTML text (code points), `save_as` filename, filesystem before
the call ↦ (`some` returned paths, or `none` for a raised exception;
filesystem after the call). -/
def Renderer : Type :=
  Html2Image → List Nat → String → FS → Option (List String) × FS

/-- Observable steps of one run, in order of occurrence. The renderer
invocation records the arguments passed to `hti.screenshot`; the paths
it returns are deliberately not recorded, because the script never uses
them. -/
inductive Event where
  | readSource (p : Path)
  | renderCall (cfg : Html2Image) (html : List Nat) (saveAs : String)
  | checkOutput (p : Path)
  | reportSuccess
  | reportMissing
deriving DecidableEq

/-- Did the event invoke the renderer? -/
def Event.isRender : Event → Bool
  | .renderCall _ _ _ => true
  | _ => false

/-- Did the event read the source file? -/
def Event.isRead : Event → Bool
  | .readSource _ => true
  | _ => false

/-- The outcome of one process run: exit status, lines printed to
standard output, final filesystem, event trace. -/
structure RunResult where
  exitCode : Nat
  stdout : List String
  fs : FS
  events : List Event
deriving DecidableEq

/-- `f"{n/1024:.0f}"` for a byte count `n`: the quotient `n / 1024`
rounded to the nearest integer with ties to even. For `n < 2^53` the
float quotient `st_size / 1024` is exact in binary64 (division by a
power of two of an exactly representable integer), so this `Nat`
computation reproduces Python's formatting exactly on that range. -/
def fmtKB (n : Nat) : Nat :=
  let q := n / 1024
  let r := n % 1024
  if r < 512 then q
  else if r = 512 then (if q % 2 = 0 then q else q + 1)
  else q + 1

/-- The whole script, from `SCRIPT_DIR = Path(__file__).parent.resolve()`
to the final `print`. `scriptDir` is the resolved directory containing
the script; `render` is the external screenshot capability; `fs0` is the
filesystem when the process starts. The `render ... fs0` expression is
repeated where Python binds it once — `render` is a pure function of its
arguments, so the repetitions denote the single bound value. -/
def run (scriptDir : String) (render : Renderer) (fs0 : FS) : RunResult :=
  match fsRead fs0 ⟨scriptDir, htmlFileName⟩ with
  | none => ⟨1, [], fs0, []⟩
  | some bytes =>
    match decodeUtf8 bytes with
    | none => ⟨1, [], fs0, []⟩
    | some html =>
      match (render (mkHti scriptDir) html outputFileName fs0).1 with
      | none =>
        ⟨1, [], (render (mkHti scriptDir) html outputFileName fs0).2,
          [.readSource ⟨scriptDir, htmlFileName⟩,
           .renderCall (mkHti scriptDir) html outputFileName]⟩
      | some _paths =>
        if fsExists (render (mkHti scriptDir) html outputFileName fs0).2
            ⟨scriptDir, outputFileName⟩ then
          ⟨0,
           ["Success: " ++ pathStr ⟨scriptDir, outputFileName⟩ ++ " (" ++
              toString
                (fmtKB
                  (fsSize (render (mkHti scriptDir) html outputFileName fs0).2
                    ⟨scriptDir, outputFileName⟩)) ++ " KB)"],
           (render (mkHti scriptDir) html outputFileName fs0).2,
           [.readSource ⟨scriptDir, htmlFileName⟩,
            .renderCall (mkHti scriptDir) html outputFileName,
            .checkOutput ⟨scriptDir, outputFileName⟩, .reportSuccess]⟩
        else
          ⟨0, ["Error: PNG file was not created"],
           (render (mkHti scriptDir) html outputFileName fs0).2,
           [.readSource ⟨scriptDir, htmlFileName⟩,
            .renderCall (mkHti scriptDir) html outputFileName,
            .checkOutput ⟨scriptDir, outputFileName⟩, .reportMissing]⟩

/-- Path of the run when the source HTML file is absent:
`HTML_FILE.read_text` raises `FileNotFoundError`, nothing else runs. -/
theorem run_read_none (sd : String) (rd : Renderer) (fs0 : FS)
    (h : fsRead fs0 ⟨sd, htmlFileName⟩ = none) :
    run sd rd fs0 = ⟨1, [], fs0, []⟩ := by
  simp only [run, h]

/-- Path of the run when the source file exists but its bytes are not
valid UTF-8: `read_text` raises `UnicodeDecodeError`, nothing else runs. -/
theorem run_decode_none (sd : String) (rd : Renderer) (fs0 : FS) (bytes : List Nat)
    (hb : fsRead fs0 ⟨sd, htmlFileName⟩ = some bytes)
    (hd : decodeUtf8 bytes = none) :
    run sd rd fs0 = ⟨1, [], fs0, []⟩ := by
  simp only [run, hb, hd]

/-- Path of the run when `hti.screenshot` raises: the process aborts
after the read and the renderer invocation. -/
theorem run_render_fault (sd : String) (rd : Renderer) (fs0 : FS)
    (bytes html : List Nat)
    (hb : fsRead fs0 ⟨sd, htmlFileName⟩ = some bytes)
    (hd : decodeUtf8 bytes = some html)
    (hr : (rd (mkHti sd) html outputFileName fs0).1 = none) :
    run sd rd fs0 =
      ⟨1, [], (rd (mkHti sd) html outputFileName fs0).2,
        [.readSource ⟨sd, htmlFileName⟩,
         .renderCall (mkHti sd) html outputFileName]⟩ := by
  simp only [run, hb, hd, hr]

/-- Path of the run when `hti.screenshot` returns but no file exists at
the expected output path. -/
theorem run_report_missing (sd : String) (rd : Renderer) (fs0 : FS)
    (bytes html : List Nat) (ps : List String)
    (hb : fsRead fs0 ⟨sd, htmlFileName⟩ = some bytes)
    (hd : decodeUtf8 bytes = some html)
    (hr : (rd (mkHti sd) html outputFileName fs0).1 = some ps)
    (hm : fsExists (rd (mkHti sd) html outputFileName fs0).2 ⟨sd, outputFileName⟩ = false) :
    run sd rd fs0 =
      ⟨0, ["Error: PNG file was not created"],
        (rd (mkHti sd) html outputFileName fs0).2,
        [.readSource ⟨sd, htmlFileName⟩,
         .renderCall (mkHti sd) html outputFileName,
         .checkOutput ⟨sd, outputFileName⟩, .reportMissing]⟩ := by
  simp only [run, hb, hd, hr, hm, Bool.false_eq_true, if_false]

/-- Path of the run when `hti.screenshot` returns and the output file
exists. -/
theorem run_report_success (sd : String) (rd : Renderer) (fs0 : FS)
    (bytes html : List Nat) (ps : List String)
    (hb : fsRead fs0 ⟨sd, htmlFileName⟩ = some bytes)
    (hd : decodeUtf8 bytes = some html)
    (hr : (rd (mkHti sd) html outputFileName fs0).1 = some ps)
    (he : fsExists (rd (mkHti sd) html outputFileName fs0).2 ⟨sd, outputFileName⟩ = true) :
    run sd rd fs0 =
      ⟨0,
        ["Success: " ++ pathStr ⟨sd, outputFileName⟩ ++ " (" ++
           toString
             (fmtKB
               (fsSize (rd (mkHti sd) html outputFileName fs0).2
                 ⟨sd, outputFileName⟩)) ++ " KB)"],
        (rd (mkHti sd) html outputFileName fs0).2,
        [.readSource ⟨sd, htmlFileName⟩,
         .renderCall (mkHti sd) html outputFileName,
         .checkOutput ⟨sd, outputFileName⟩, .reportSuccess]⟩ := by
  simp only [run, hb, hd, hr, he, if_true]

/-- Every run takes one of four paths: abort during the read (missing
file or bad encoding), abort inside the renderer, or a complete run
ending in exactly one report. -/
theorem run_cases (sd : String) (rd : Renderer) (fs0 : FS) :
    ((run sd rd fs0).events = [] ∧ (run sd rd fs0).exitCode = 1) ∨
    (∃ html, (run sd rd fs0).events =
        [.readSource ⟨sd, htmlFileName⟩, .renderCall (mkHti sd) html outputFileName] ∧
      (run sd rd fs0).exitCode = 1) ∨
    (∃ html, (run sd rd fs0).events =
        [.readSource ⟨sd, htmlFileName⟩, .renderCall (mkHti sd) html outputFileName,
         .checkOutput ⟨sd, outputFileName⟩, .reportSuccess] ∧
      (run sd rd fs0).exitCode = 0) ∨
    (∃ html, (run sd rd fs0).events =
        [.readSource ⟨sd, htmlFileName⟩, .renderCall (mkHti sd) html outputFileName,
         .checkOutput ⟨sd, outputFileName⟩, .reportMissing] ∧
      (run sd rd fs0).exitCode = 0) := by
  rcases hb : fsRead fs0 ⟨sd, htmlFileName⟩ with _ | bytes
  · left
    rw [run_read_none sd rd fs0 hb]
    exact ⟨rfl, rfl⟩
  · rcases hd : decodeUtf8 bytes with _ | html
    · left
      rw [run_decode_none sd rd fs0 bytes hb hd]
      exact ⟨rfl, rfl⟩
    · rcases hr : (rd (mkHti sd) html outputFileName fs0).1 with _ | ps
      · right; left
        rw [run_render_fault sd rd fs0 bytes html hb hd hr]
        exact ⟨html, rfl, rfl⟩
      · rcases he : fsExists (rd (mkHti sd) html outputFileName fs0).2 ⟨sd, outputFileName⟩
          with _ | _
        · right; right; right
          rw [run_report_missing sd rd fs0 bytes html ps hb hd hr he]
          exact ⟨html, rfl, rfl⟩
        · right; right; left
          rw [run_report_success sd rd fs0 bytes html ps hb hd hr he]
          exact ⟨html, rfl, rfl⟩

/-- Any renderer invocation recorded in a run carries the fixed
configuration and the fixed target filename. -/
theorem renderCall_mem_run (sd : String) (rd : Renderer) (fs0 : FS)
    (cfg : Html2Image) (html : List Nat) (saveAs : String)
    (h : Event.renderCall cfg html saveAs ∈ (run sd rd fs0).events) :
    cfg = mkHti sd ∧ saveAs = outputFileName := by
  rcases run_cases sd rd fs0 with ⟨he, _⟩ | ⟨h2, he, _⟩ | ⟨h2, he, _⟩ | ⟨h2, he, _⟩ <;>
    rw [he] at h <;> simp at h <;> exact ⟨h.1, h.2.2⟩

/-- Any source-read event recorded in a run names the HTML file in the
script's directory. -/
theorem readSource_mem_run (sd : String) (rd : Renderer) (fs0 : FS) (p : Path)
    (h : Event.readSource p ∈ (run sd rd fs0).events) :
    p = ⟨sd, htmlFileName⟩ := by
  rcases run_cases sd rd fs0 with ⟨he, _⟩ | ⟨h2, he, _⟩ | ⟨h2, he, _⟩ | ⟨h2, he, _⟩ <;>
    rw [he] at h <;> simp at h <;> exact h

/-- Any existence-check event recorded in a run names the PNG file in
the script's directory. -/
theorem checkOutput_mem_run (sd : String) (rd : Renderer) (fs0 : FS) (p : Path)
    (h : Event.checkOutput p ∈ (run sd rd fs0).events) :
    p = ⟨sd, outputFileName⟩ := by
  rcases run_cases sd rd fs0 with ⟨he, _⟩ | ⟨h2, he, _⟩ | ⟨h2, he, _⟩ | ⟨h2, he, _⟩ <;>
    rw [he] at h <;> simp at h <;> exact h

/-- The renderer is invoked at most once per run (exactly once in every
run that survives the read). -/
theorem renderCall_count_le_one (sd : String) (rd : Renderer) (fs0 : FS) :
    (run sd rd fs0).events.countP Event.isRender ≤ 1 := by
  rcases run_cases sd rd fs0 with ⟨he, _⟩ | ⟨h2, he, _⟩ | ⟨h2, he, _⟩ | ⟨h2, he, _⟩ <;>
    rw [he] <;> simp [List.countP_cons, Event.isRender]

/-- The source file is opened at most once per run (exactly once in
every run where the read succeeds). -/
theorem readSource_count_le_one (sd : String) (rd : Renderer) (fs0 : FS) :
    (run sd rd fs0).events.countP Event.isRead ≤ 1 := by
  rcases run_cases sd rd fs0 with ⟨he, _⟩ | ⟨h2, he, _⟩ | ⟨h2, he, _⟩ | ⟨h2, he, _⟩ <;>
    rw [he] <;> simp [List.countP_cons, Event.isRead]

/-- A source filesystem: a one-byte ASCII HTML file in directory `"d"`. -/
def fsHtml : FS := [(⟨"d", htmlFileName⟩, [60])]

/-- An oracle that writes a 600-byte file at the configured target and
returns its path. -/
def renderWrite600 : Renderer :=
  fun cfg _ s f =>
    (some [cfg.output_path ++ "/" ++ s], (⟨cfg.output_path, s⟩, List.replicate 600 0) :: f)

/-- An oracle that returns normally, with an empty path list, writing
nothing. -/
def renderNoop : Renderer := fun _ _ _ f => (some [], f)

/-- An oracle that returns normally, with a nonempty path list, writing
nothing. -/
def renderNoopPaths : Renderer := fun _ _ _ f => (some ["extra"], f)

/-- C1: in every run where the render call returns but no file exists at
the expected output path, the program prints the error message to
standard output and the process still exits with status 0 — the
existence-check failure path never alters the exit code. -/
theorem C1_missing_output_prints_error_exits_zero (sd : String) (rd : Renderer) (fs0 : FS)
    (bytes html : List Nat) (ps : List String)
    (hb : fsRead fs0 ⟨sd, htmlFileName⟩ = some bytes)
    (hd : decodeUtf8 bytes = some html)
    (hr : (rd (mkHti sd) html outputFileName fs0).1 = some ps)
    (hm : fsExists (rd (mkHti sd) html outputFileName fs0).2 ⟨sd, outputFileName⟩ = false) :
    (run sd rd fs0).stdout = ["Error: PNG file was not created"] ∧
      (run sd rd fs0).exitCode = 0 := by
  rw [run_report_missing sd rd fs0 bytes html ps hb hd hr hm]
  exact ⟨rfl, rfl⟩

/-- C1, instantiated: a run whose renderer returns without writing
anything prints the error line and exits 0. -/
theorem C1_witness :
    (run "d" renderNoop fsHtml).stdout = ["Error: PNG file was not created"] ∧
      (run "d" renderNoop fsHtml).exitCode = 0 :=
  C1_missing_output_prints_error_exits_zero "d" renderNoop fsHtml [60] [60] []
    (by decide) (by decide) rfl (by decide)

/-- C3: when the source HTML file is absent, the process exits with
status 1 before any step is recorded — the renderer is never invoked,
the existence check is never reached, nothing is printed, and the
filesystem (in particular any output artifact) is untouched. -/
theorem C3_missing_source_aborts_untouched (sd : String) (rd : Renderer) (fs0 : FS)
    (h : fsRead fs0 ⟨sd, htmlFileName⟩ = none) :
    (run sd rd fs0).exitCode = 1 ∧ (run sd rd fs0).events = [] ∧
      (run sd rd fs0).fs = fs0 ∧ (run sd rd fs0).stdout = [] := by
  rw [run_read_none sd rd fs0 h]
  exact ⟨rfl, rfl, rfl, rfl⟩

/-- C3, instantiated on an empty filesystem. -/
theorem C3_witness :
    (run "d" renderWrite600 []).exitCode = 1 ∧ (run "d" renderWrite600 []).events = [] ∧
      (run "d" renderWrite600 []).fs = [] ∧ (run "d" renderWrite600 []).stdout = [] :=
  C3_missing_source_aborts_untouched "d" renderWrite600 [] rfl

/-- C9: when the source file exists but its bytes are not valid UTF-8,
the process exits with status 1 before the renderer is ever invoked and
the filesystem is untouched. -/
theorem C9_invalid_utf8_aborts_before_render (sd : String) (rd : Renderer) (fs0 : FS)
    (bytes : List Nat)
    (hb : fsRead fs0 ⟨sd, htmlFileName⟩ = some bytes)
    (hd : decodeUtf8 bytes = none) :
    (run sd rd fs0).exitCode = 1 ∧ (run sd rd fs0).events = [] ∧
      (run sd rd fs0).fs = fs0 ∧ (run sd rd fs0).stdout = [] := by
  rw [run_decode_none sd rd fs0 bytes hb hd]
  exact ⟨rfl, rfl, rfl, rfl⟩

/-- C9, instantiated: a source file consisting of the single byte 0xFF
(never valid UTF-8) aborts the run before the renderer. -/
theorem C9_witness :
    (run "d" renderWrite600 [(⟨"d", htmlFileName⟩, [255])]).exitCode = 1 ∧
      (run "d" renderWrite600 [(⟨"d", htmlFileName⟩, [255])]).events = [] ∧
      (run "d" renderWrite600 [(⟨"d", htmlFileName⟩, [255])]).fs =
        [(⟨"d", htmlFileName⟩, [255])] ∧
      (run "d" renderWrite600 [(⟨"d", htmlFileName⟩, [255])]).stdout = [] :=
  C9_invalid_utf8_aborts_before_render "d" renderWrite600 [(⟨"d", htmlFileName⟩, [255])]
    [255] (by decide) (by decide)

/-- C8: every run follows the linear order ReadSource → Render →
CheckOutput → exactly one of ReportSuccess or ReportMissing; runs that
abort early stop along this order, there are no loops or retries, and
the renderer is invoked at most once per run (exactly once in every run
that reaches the check). -/
theorem C8_linear_step_order (sd : String) (rd : Renderer) (fs0 : FS) :
    (((run sd rd fs0).events = [] ∧ (run sd rd fs0).exitCode = 1) ∨
      (∃ html, (run sd rd fs0).events =
          [.readSource ⟨sd, htmlFileName⟩, .renderCall (mkHti sd) html outputFileName] ∧
        (run sd rd fs0).exitCode = 1) ∨
      (∃ html, (run sd rd fs0).events =
          [.readSource ⟨sd, htmlFileName⟩, .renderCall (mkHti sd) html outputFileName,
           .checkOutput ⟨sd, outputFileName⟩, .reportSuccess] ∧
        (run sd rd fs0).exitCode = 0) ∨
      (∃ html, (run sd rd fs0).events =
          [.readSource ⟨sd, htmlFileName⟩, .renderCall (mkHti sd) html outputFileName,
           .checkOutput ⟨sd, outputFileName⟩, .reportMissing] ∧
        (run sd rd fs0).exitCode = 0)) ∧
    (run sd rd fs0).events.countP Event.isRender ≤ 1 :=
  ⟨run_cases sd rd fs0, renderCall_count_le_one sd rd fs0⟩

/-- C4: every renderer invocation in any run passes exactly the fixed
configuration — browser `"chrome"`, the hardcoded executable path, the
script's directory as output directory, a 1400×1100 viewport and
exactly the two custom flags — together with the fixed target filename,
and the configuration is constructed for at most one invocation per
run. -/
theorem C4_render_config_fixed (sd : String) (rd : Renderer) (fs0 : FS) :
    (∀ cfg html saveAs, Event.renderCall cfg html saveAs ∈ (run sd rd fs0).events →
        cfg = ⟨"chrome", "/Applications/Google Chrome.app/Contents/MacOS/Google Chrome",
               sd, (1400, 1100),
               ["--default-background-color=00000000", "--hide-scrollbars"]⟩ ∧
          saveAs = "dao_vs_dee_diagram.png") ∧
      (run sd rd fs0).events.countP Event.isRender ≤ 1 := by
  refine ⟨fun cfg html saveAs h => ?_, renderCall_count_le_one sd rd fs0⟩
  obtain ⟨h1, h2⟩ := renderCall_mem_run sd rd fs0 cfg html saveAs h
  exact ⟨h1, h2⟩

/-- C4, instantiated on a run that reaches the renderer. -/
theorem C4_witness :
    (mkHti "d" = ⟨"chrome", "/Applications/Google Chrome.app/Contents/MacOS/Google Chrome",
        "d", (1400, 1100), ["--default-background-color=00000000", "--hide-scrollbars"]⟩ ∧
      outputFileName = "dao_vs_dee_diagram.png") ∧
      (run "d" renderWrite600 fsHtml).events.countP Event.isRender ≤ 1 :=
  ⟨(C4_render_config_fixed "d" renderWrite600 fsHtml).1 (mkHti "d") [60] outputFileName
      (by decide),
    (C4_render_config_fixed "d" renderWrite600 fsHtml).2⟩

/-- C5: the file the run reads is exactly `dao_vs_dee_diagram.html` in
the script's own directory and the file whose existence it checks is
exactly `dao_vs_dee_diagram.png` in that same directory; both are built
from the script's resolved location (the model's `run` has no working
directory input at all). -/
theorem C5_paths_resolved_from_script_dir (sd : String) (rd : Renderer) (fs0 : FS) :
    (∀ p, Event.readSource p ∈ (run sd rd fs0).events →
        p = ⟨sd, "dao_vs_dee_diagram.html"⟩) ∧
      (∀ p, Event.checkOutput p ∈ (run sd rd fs0).events →
        p = ⟨sd, "dao_vs_dee_diagram.png"⟩) :=
  ⟨fun p h => readSource_mem_run sd rd fs0 p h,
   fun p h => checkOutput_mem_run sd rd fs0 p h⟩

/-- C5, instantiated on a run that reaches the existence check. -/
theorem C5_witness :
    ((⟨"d", htmlFileName⟩ : Path) = ⟨"d", "dao_vs_dee_diagram.html"⟩) ∧
      ((⟨"d", outputFileName⟩ : Path) = ⟨"d", "dao_vs_dee_diagram.png"⟩) :=
  ⟨(C5_paths_resolved_from_script_dir "d" renderWrite600 fsHtml).1
      ⟨"d", htmlFileName⟩ (by decide),
    (C5_paths_resolved_from_script_dir "d" renderWrite600 fsHtml).2
      ⟨"d", outputFileName⟩ (by decide)⟩

/-- C6: the output path is deterministic across runs — in any two runs
with the same script directory, whatever the oracle or the prior
filesystem state, the renderer target and the checked output path are
the same fixed path `scriptDir/dao_vs_dee_diagram.png`, so a re-run
addresses exactly the path of the prior artifact. -/
theorem C6_output_path_deterministic (sd : String) (rd rd' : Renderer) (fs0 fs0' : FS) :
    (∀ p p', Event.checkOutput p ∈ (run sd rd fs0).events →
        Event.checkOutput p' ∈ (run sd rd' fs0').events →
        p = p' ∧ p = ⟨sd, outputFileName⟩) ∧
      (∀ cfg html saveAs cfg' html' saveAs',
        Event.renderCall cfg html saveAs ∈ (run sd rd fs0).events →
        Event.renderCall cfg' html' saveAs' ∈ (run sd rd' fs0').events →
        (⟨cfg.output_path, saveAs⟩ : Path) = ⟨cfg'.output_path, saveAs'⟩ ∧
          (⟨cfg.output_path, saveAs⟩ : Path) = ⟨sd, outputFileName⟩) := by
  constructor
  · intro p p' h h'
    have h1 := checkOutput_mem_run sd rd fs0 p h
    have h2 := checkOutput_mem_run sd rd' fs0' p' h'
    exact ⟨h1.trans h2.symm, h1⟩
  · intro cfg html saveAs cfg' html' saveAs' h h'
    obtain ⟨hc, hs⟩ := renderCall_mem_run sd rd fs0 cfg html saveAs h
    obtain ⟨hc', hs'⟩ := renderCall_mem_run sd rd' fs0' cfg' html' saveAs' h'
    rw [hc, hs, hc', hs']
    exact ⟨rfl, rfl⟩

/-- C6, instantiated on two runs with different oracles and the prior
artifact present in one of them. -/
theorem C6_witness :
    ((⟨"d", outputFileName⟩ : Path) = ⟨"d", outputFileName⟩ ∧
        (⟨"d", outputFileName⟩ : Path) = ⟨"d", outputFileName⟩) ∧
      ((⟨(mkHti "d").output_path, outputFileName⟩ : Path) =
          ⟨(mkHti "d").output_path, outputFileName⟩ ∧
        (⟨(mkHti "d").output_path, outputFileName⟩ : Path) = ⟨"d", outputFileName⟩) :=
  ⟨(C6_output_path_deterministic "d" renderWrite600 renderNoop fsHtml fsHtml).1
      ⟨"d", outputFileName⟩ ⟨"d", outputFileName⟩ (by decide) (by decide),
    (C6_output_path_deterministic "d" renderWrite600 renderNoop fsHtml fsHtml).2
      (mkHti "d") [60] outputFileName (mkHti "d") [60] outputFileName
      (by decide) (by decide)⟩

/-- C7: the behavior after the render call does not depend on the path
list the screenshot call returns — two oracles that agree on the
resulting filesystem and on whether the call returns at all (but may
return arbitrarily different path lists) yield identical runs; success
is decided solely by the filesystem existence check. -/
theorem C7_independent_of_returned_paths (sd : String) (rd rd' : Renderer) (fs0 : FS)
    (hfs : ∀ cfg html s f, (rd cfg html s f).2 = (rd' cfg html s f).2)
    (hret : ∀ cfg html s f, ((rd cfg html s f).1).isSome = ((rd' cfg html s f).1).isSome) :
    run sd rd fs0 = run sd rd' fs0 := by
  rcases hb : fsRead fs0 ⟨sd, htmlFileName⟩ with _ | bytes
  · rw [run_read_none sd rd fs0 hb, run_read_none sd rd' fs0 hb]
  · rcases hd : decodeUtf8 bytes with _ | html
    · rw [run_decode_none sd rd fs0 bytes hb hd, run_decode_none sd rd' fs0 bytes hb hd]
    · have h2 := hfs (mkHti sd) html outputFileName fs0
      have h1 := hret (mkHti sd) html outputFileName fs0
      rcases hr : (rd (mkHti sd) html outputFileName fs0).1 with _ | ps
      · have hr' : (rd' (mkHti sd) html outputFileName fs0).1 = none := by
          rw [hr] at h1
          exact Option.not_isSome_iff_eq_none.mp (by rw [← h1]; exact Bool.false_ne_true)
        rw [run_render_fault sd rd fs0 bytes html hb hd hr,
            run_render_fault sd rd' fs0 bytes html hb hd hr', h2]
      · have hs' : ((rd' (mkHti sd) html outputFileName fs0).1).isSome = true := by
          rw [← h1, hr]
          rfl
        obtain ⟨ps', hr'⟩ := Option.isSome_iff_exists.mp hs'
        rcases he : fsExists (rd (mkHti sd) html outputFileName fs0).2 ⟨sd, outputFileName⟩
          with _ | _
        · rw [run_report_missing sd rd fs0 bytes html ps hb hd hr he,
              run_report_missing sd rd' fs0 bytes html ps' hb hd hr' (by rw [← h2]; exact he),
              h2]
        · rw [run_report_success sd rd fs0 bytes html ps hb hd hr he,
              run_report_success sd rd' fs0 bytes html ps' hb hd hr' (by rw [← h2]; exact he),
              h2]

/-- C7, instantiated: an oracle returning a nonempty path list and one
returning the empty list, with the same filesystem effect, give runs
that are equal as whole results. -/
theorem C7_witness :
    run "d" renderNoopPaths fsHtml = run "d" renderNoop fsHtml :=
  C7_independent_of_returned_paths "d" renderNoopPaths renderNoop fsHtml
    (fun _ _ _ _ => rfl) (fun _ _ _ _ => rfl)

/-- C10: the source HTML file is never written or modified by the run —
provided the external renderer confines its writes to its configured
target (the spec's "writes one file to disk"), every path other than
the output artifact, and in particular the source file, has the same
contents after the run as before, and the source is opened at most once
per run, only for reading. -/
theorem C10_source_file_never_written (sd : String) (rd : Renderer) (fs0 : FS)
    (hframe : ∀ cfg html s f p, p ≠ (⟨cfg.output_path, s⟩ : Path) →
        fsRead (rd cfg html s f).2 p = fsRead f p) :
    (∀ p, p ≠ (⟨sd, outputFileName⟩ : Path) →
        fsRead (run sd rd fs0).fs p = fsRead fs0 p) ∧
      fsRead (run sd rd fs0).fs ⟨sd, htmlFileName⟩ = fsRead fs0 ⟨sd, htmlFileName⟩ ∧
      (run sd rd fs0).events.countP Event.isRead ≤ 1 := by
  have key : ∀ p, p ≠ (⟨sd, outputFileName⟩ : Path) →
      fsRead (run sd rd fs0).fs p = fsRead fs0 p := by
    intro p hp
    rcases hb : fsRead fs0 ⟨sd, htmlFileName⟩ with _ | bytes
    · rw [run_read_none sd rd fs0 hb]
    · rcases hd : decodeUtf8 bytes with _ | html
      · rw [run_decode_none sd rd fs0 bytes hb hd]
      · have hfr := hframe (mkHti sd) html outputFileName fs0 p hp
        rcases hr : (rd (mkHti sd) html outputFileName fs0).1 with _ | ps
        · rw [run_render_fault sd rd fs0 bytes html hb hd hr]
          exact hfr
        · rcases he : fsExists (rd (mkHti sd) html outputFileName fs0).2 ⟨sd, outputFileName⟩
            with _ | _
          · rw [run_report_missing sd rd fs0 bytes html ps hb hd hr he]
            exact hfr
          · rw [run_report_success sd rd fs0 bytes html ps hb hd hr he]
            exact hfr
  refine ⟨key, key ⟨sd, htmlFileName⟩ ?_, readSource_count_le_one sd rd fs0⟩
  intro hcontra
  have hnames : htmlFileName ≠ outputFileName := by decide
  exact hnames (congrArg Path.name hcontra)

/-- C10, instantiated: a renderer that writes exactly its configured
target leaves the source file untouched. -/
theorem C10_witness :
    fsRead (run "d" renderWrite600 fsHtml).fs ⟨"d", htmlFileName⟩ =
        fsRead fsHtml ⟨"d", htmlFileName⟩ ∧
      (run "d" renderWrite600 fsHtml).events.countP Event.isRead ≤ 1 :=
  (C10_source_file_never_written "d" renderWrite600 fsHtml
    (fun cfg html s f p hp => by
      simp only [renderWrite600, fsRead]
      rw [if_neg (Ne.symm hp)])).2

/-- C2, as stated, is false on the code: the success message rounds the
kilobyte count to the nearest integer (Python `.0f` float formatting),
it does not truncate. On a 600-byte output file the code prints
`(1 KB)` while `floor(600 / 1024) = 0`. -/
theorem C2_counterexample :
    fsSize (run "d" renderWrite600 fsHtml).fs ⟨"d", outputFileName⟩ = 600 ∧
      (run "d" renderWrite600 fsHtml).stdout =
        ["Success: d/dao_vs_dee_diagram.png (1 KB)"] ∧
      (run "d" renderWrite600 fsHtml).stdout ≠
        ["Success: " ++ pathStr ⟨"d", outputFileName⟩ ++ " (" ++ toString (600 / 1024) ++
           " KB)"] := by
  decide

/-- C2 (amended): whenever the output file exists after the render call,
the printed message is `Success: <path> (<N> KB)` with `<path>` the
resolved output path and `N` the file's byte size divided by 1024
rounded to the NEAREST integer with ties to even — the semantics of
Python's `.0f` float formatting, exact for sizes below 2^53 — not
truncated; and the process exits with status 0. -/
theorem C2_success_message_rounded_kb (sd : String) (rd : Renderer) (fs0 : FS)
    (bytes html : List Nat) (ps : List String)
    (hb : fsRead fs0 ⟨sd, htmlFileName⟩ = some bytes)
    (hd : decodeUtf8 bytes = some html)
    (hr : (rd (mkHti sd) html outputFileName fs0).1 = some ps)
    (he : fsExists (rd (mkHti sd) html outputFileName fs0).2 ⟨sd, outputFileName⟩ = true)
    (_hsmall :
      fsSize (rd (mkHti sd) html outputFileName fs0).2 ⟨sd, outputFileName⟩ < 2 ^ 53) :
    (run sd rd fs0).stdout =
      ["Success: " ++ pathStr ⟨sd, outputFileName⟩ ++ " (" ++
         toString
           (fmtKB
             (fsSize (rd (mkHti sd) html outputFileName fs0).2 ⟨sd, outputFileName⟩)) ++
         " KB)"] ∧
      (run sd rd fs0).exitCode = 0 := by
  rw [run_report_success sd rd fs0 bytes html ps hb hd hr he]
  exact ⟨rfl, rfl⟩

/-- C2 (amended), instantiated on a 600-byte output file. -/
theorem C2_witness :
    (run "d" renderWrite600 fsHtml).stdout =
      ["Success: " ++ pathStr ⟨"d", outputFileName⟩ ++ " (" ++
         toString
           (fmtKB
             (fsSize (renderWrite600 (mkHti "d") [60] outputFileName fsHtml).2
               ⟨"d", outputFileName⟩)) ++
         " KB)"] ∧
      (run "d" renderWrite600 fsHtml).exitCode = 0 :=
  C2_success_message_rounded_kb "d" renderWrite600 fsHtml [60] [60]
    ["d/dao_vs_dee_diagram.png"] (by decide) (by decide) (by decide) (by decide) (by decide)

end HtmlToPng
